import Mathlib

/-!
Verification development for the RSSucks UI layer
(src/view.rs and src/widgets/article/preview.rs).

The views run under an immediate-mode GUI: each frame, `show` rebuilds the
widget tree from the current state and the frame's events.  We embed each
`show` as a pure function from its per-frame inputs (the feed-client's
responses, the click state of this frame's buttons, the content of text
fields after editing) to the list of rendered widgets, the list of client
calls issued, and the successor window state.  Rust panics (`unwrap`) are
modelled with `Except`.
-/

/-- Feed identifier (`utils::rss_client::FeedId`, opaque id consumed by the
views). -/
structure FeedId where
  id : Nat
deriving DecidableEq, Repr

/-- Folder identifier (`utils::rss_client::FolderId`). -/
structure FolderId where
  id : Nat
deriving DecidableEq, Repr

/-- A text value carrying a `content` field, as accessed by `view.rs`
(`title.content`, `description.content`, `summary ... .content`). -/
structure TextContent where
  content : String
deriving DecidableEq, Repr

/-- A link carrying an `href`, as accessed by `entry.links ... .href`. -/
structure FeedLink where
  href : String
deriving DecidableEq, Repr

/-- An author carrying a `name`, as accessed by `entry.authors ... .name`. -/
structure Person where
  name : String
deriving DecidableEq, Repr

/-- A feed entry, with exactly the fields `FeedFlowView::show` reads.
Fields the Rust code accesses through `.iter().next()` are lists (the code
only ever looks at the first element); `title` is accessed with
`.as_ref().map`, hence an `Option`.  Timestamps are modelled by their
rendered string (the code only calls `to_string` on them). -/
structure Entry where
  title : Option TextContent
  summary : List TextContent
  updated : List String
  links : List FeedLink
  authors : List Person
deriving DecidableEq, Repr

/-- A synced feed model (`feed.model` contents), with the fields
`FeedFlowView::show` reads. -/
structure FeedModel where
  title : Option TextContent
  updated : Option String
  description : Option TextContent
  entries : List Entry
deriving DecidableEq, Repr

/-- A feed as returned by `rss_client.get_feed`: its url and an optional
synced model. -/
structure Feed where
  url : String
  model : Option FeedModel
deriving DecidableEq, Repr

/-- The arguments of `renderer::ArticleComponent::new` as built in
`FeedFlowView::show` (channel, author, title, link, time, content). -/
structure ArticleComponent where
  channel : String
  author : Option String
  title : String
  link : String
  time : String
  content : String
deriving DecidableEq, Repr

/-- One rendered widget.  Each constructor corresponds to one `ui.*` call
site in the reviewed code. -/
inductive UiItem where
  /-- `ui.spinner()` -/
  | spinner
  /-- `ui.heading(text)` -/
  | heading (s : String)
  /-- `ui.label(text)` -/
  | label (s : String)
  /-- `ui.separator()` -/
  | separator
  /-- `component.render_preview_component(...)` for one entry -/
  | article (c : ArticleComponent)
  /-- `ui.button(text)` -/
  | button (s : String)
  /-- `ui.hyperlink_to(text, url)` -/
  | hyperlink (text url : String)
  /-- `ui.text_edit_singleline(..)` showing the field's content -/
  | textEdit (s : String)
  /-- `ui.add(CollapsingFolder::new(app, folder_id))` -/
  | collapsingFolder (fid : FolderId)
  /-- `ui.add(widget::FeedMinimal::new(app, feed_id))` -/
  | feedMinimal (fid : FeedId)
deriving DecidableEq, Repr

/-- A call issued to the feed client during one frame. -/
inductive ClientCall where
  /-- `app.rss_client.try_start_sync_feed(id)` -/
  | tryStartSyncFeed (id : FeedId)
  /-- `self.client.create_feed_with_folder(url, folder_id)`; the url is the
  string form of the successfully parsed `url::Url`. -/
  | createFeedWithFolder (url : String) (folder : Option FolderId)
  /-- `self.client.create_folder(&name)` -/
  | createFolder (name : String)
deriving DecidableEq, Repr

/-- A Rust panic reachable in `FeedFlowView::show`. -/
inductive Panic where
  /-- `get_feed(&self.id).unwrap()` on `None` (view.rs line 40) -/
  | unwrapNone
  /-- `render_preview_component(..).unwrap()` on `Err` (view.rs line 100) -/
  | renderPreviewErr (c : ArticleComponent)
deriving DecidableEq, Repr

/-- The `FeedFlowView` struct from view.rs. -/
structure FeedFlowView where
  id : FeedId
  page : Nat
  per_page : Nat
deriving DecidableEq, Repr

/-- `FeedFlowView::new`. -/
def FeedFlowView.new (id : FeedId) : FeedFlowView :=
  { id := id, page := 1, per_page := 5 }

/-- The `ArticleComponent` built for one entry inside the entry loop of
`FeedFlowView::show` (view.rs lines 62-98): each absent optional field
falls back to its placeholder. -/
def renderEntry (feedUrl : String) (entry : Entry) : ArticleComponent :=
  { channel := feedUrl
    author := entry.authors.head?.map Person.name
    title := (entry.title.map TextContent.content).getD "unnamed"
    link := (entry.links.head?.map FeedLink.href).getD "no link"
    time := entry.updated.head?.getD "no time"
    content := (entry.summary.head?.map TextContent.content).getD "no content" }

/-- The header widgets rendered before the entry list when the model is
present (view.rs lines 44-53). -/
def modelHeader (model : FeedModel) : List UiItem :=
  (match model.title with
   | some t => [UiItem.heading t.content]
   | none => []) ++
  (match model.updated with
   | some u => [UiItem.label ("更新于 " ++ u)]
   | none => []) ++
  (match model.description with
   | some d => [UiItem.heading d.content]
   | none => []) ++
  [UiItem.separator]

/-- The slice of entries shown on the current page
(`.skip((page-1)*per_page).take(per_page)`, view.rs lines 56-61). -/
def pageEntries (v : FeedFlowView) (model : FeedModel) : List Entry :=
  (model.entries.drop ((v.page - 1) * v.per_page)).take v.per_page

/-- `FeedFlowView::show` (the `View` impl, view.rs lines 35-113).
Per-frame inputs: `feedIsSyncing` is the client's `feed_is_syncing`
answer, `getFeed` the client's `get_feed` answer for `v.id`, `renderOk`
tells whether `render_preview_component` succeeds on a component (it is an
external fallible renderer), and `syncClicked` whether the "同步" button
was clicked this frame.  Returns the rendered widgets and the client calls
issued, or the panic reached. -/
def FeedFlowView.show (v : FeedFlowView) (feedIsSyncing : Bool)
    (getFeed : Option Feed) (renderOk : ArticleComponent → Bool)
    (syncClicked : Bool) : Except Panic (List UiItem × List ClientCall) :=
  match getFeed with
  | none => .error .unwrapNone
  | some feed =>
    let pre := if feedIsSyncing then [UiItem.spinner] else []
    match feed.model with
    | some model =>
      let comps := (pageEntries v model).map (renderEntry feed.url)
      match comps.find? (fun c => !(renderOk c)) with
      | some c => .error (.renderPreviewErr c)
      | none =>
        .ok (pre ++ modelHeader model ++ comps.map UiItem.article ++
              [UiItem.label "第一页（暂时还没写翻页的操作"], [])
    | none =>
      .ok (pre ++ [UiItem.label "该订阅尚未同步，现在同步吗？", UiItem.button "同步"],
           if syncClicked then [ClientCall.tryStartSyncFeed v.id] else [])

/-- Extract the article components from a rendered widget list, in order. -/
def renderedArticles (items : List UiItem) : List ArticleComponent :=
  items.filterMap fun
    | UiItem.article c => some c
    | _ => none

/-! ## The article preview widget (src/widgets/article/preview.rs) -/

/-- The `TextWrapping` settings set on the preview's layout job
(preview.rs lines 61-66); the remaining egui fields keep their defaults
and are not modelled. -/
structure TextWrapping where
  max_rows : Nat
  break_anywhere : Bool
  overflow_character : Option Char
deriving DecidableEq, Repr

/-- The kind of an article element.  Reconstructed from the use site
`element.typ == ElementType::Image` (preview.rs line 74): the `Image`
variant is compared against, every other variant is only observed as
not-`Image`. -/
inductive ElementType where
  | image
  | other
deriving DecidableEq, Repr

/-- An article element.  Reconstructed from the use site
`element.image_tuple.0.as_ref()` (preview.rs line 75): only the first
component of `image_tuple` (an optional image source) is read; the image
source is modelled by its uri string. -/
structure Element where
  typ : ElementType
  image_tuple : Option String × Option String
deriving DecidableEq, Repr

/-- The article `Builder` (`super::Builder`).  Reconstructed from the
fields the `From<&Builder> for Preview` impl reads (preview.rs lines
18-31): `elements`, `max_rows`, `break_anywhere`, `overflow_character`,
`fulltext`, `title`. -/
structure Builder where
  elements : Option (List Element)
  max_rows : Nat
  break_anywhere : Bool
  overflow_character : Option Char
  fulltext : Option String
  title : String
deriving DecidableEq, Repr

/-- The `Preview` struct (preview.rs lines 6-16).  The `scroll_area_id`
(a fresh `Uuid::new_v4()`, used only to key the scroll area) is not
modelled. -/
structure Preview where
  elements : Option (List Element)
  max_rows : Nat
  break_anywhere : Bool
  overflow_character : Option Char
  fulltext : Option String
  max_images_num : Nat
  title : String
deriving DecidableEq, Repr

/-- `impl From<&Builder> for Preview` (preview.rs lines 18-31):
`max_images_num` is hard-coded to 3. -/
def Preview.fromBuilder (b : Builder) : Preview :=
  { elements := b.elements
    max_rows := b.max_rows
    break_anywhere := b.break_anywhere
    overflow_character := b.overflow_character
    fulltext := b.fulltext
    max_images_num := 3
    title := b.title }

/-- One widget rendered by `Preview::ui`. -/
inductive PreviewItem where
  /-- `ui.label(RichText::new(self.title)...)` -/
  | richTitle (s : String)
  /-- `ui.label(job)` with the layout job's text and wrapping -/
  | textJob (text : String) (wrap : TextWrapping)
  /-- the horizontal scroll area holding the image widgets, in order -/
  | imageStrip (srcs : List String)
deriving DecidableEq, Repr

/-- The image sources `Preview::ui` draws (preview.rs lines 70-81):
elements of type `Image` whose first `image_tuple` component is present,
in element order, capped at `max_images_num`. -/
def previewImages (p : Preview) : List String :=
  match p.elements with
  | none => []
  | some elements =>
    (elements.filterMap fun e =>
      if e.typ = ElementType.image then e.image_tuple.1 else none).take
      p.max_images_num

/-- `impl Widget for &Preview`, `fn ui` (preview.rs lines 33-111): renders
the title, then the text layout job (falling back to "No content..." when
`fulltext` is `None`) wrapped with the preview's truncation settings, then
the image strip exactly when at least one image source survives the
filter. -/
def Preview.ui (p : Preview) : List PreviewItem :=
  [PreviewItem.richTitle p.title,
   PreviewItem.textJob (p.fulltext.getD "No content...")
     { max_rows := p.max_rows
       break_anywhere := p.break_anywhere
       overflow_character := p.overflow_character }] ++
  (if previewImages p ≠ [] then [PreviewItem.imageStrip (previewImages p)]
   else [])

/-! ## Windows (src/view.rs) -/

/-- `InfoWindow` (view.rs lines 116-121).  The egui `Id` (a fresh uuid)
is not modelled. -/
structure InfoWindow where
  is_open : Bool
  title : String
  message : String
deriving DecidableEq, Repr

/-- `InfoWindow::new` (view.rs lines 123-132). -/
def InfoWindow.new (title message : String) : InfoWindow :=
  { is_open := true, title := title, message := message }

/-- `InfoWindow::show` (view.rs lines 135-143): the window body is handed
to egui with `.open(&mut self.is_open)`, so egui draws the message label
while the window is open and clears `is_open` when the user clicks the
title-bar close button (`closeClicked`). -/
def InfoWindow.show (w : InfoWindow) (closeClicked : Bool) :
    InfoWindow × List UiItem :=
  ({ w with is_open := w.is_open && !closeClicked },
   if w.is_open then [UiItem.label w.message] else [])

/-- `NewFeedWindow` (view.rs lines 150-156).  The client handle is
modelled by the calls the window issues; the egui `Id` is not modelled. -/
structure NewFeedWindow where
  is_open : Bool
  folder_id : Option FolderId
  feed_url : String
deriving DecidableEq, Repr

/-- `NewFeedWindow::new` (view.rs lines 158-167). -/
def NewFeedWindow.new (folder_id : Option FolderId) : NewFeedWindow :=
  { is_open := true, folder_id := folder_id, feed_url := "" }

/-- `NewFeedWindow::show` (view.rs lines 171-200).  Per-frame inputs:
`parse` is `url::Url::parse` (external; a parsed `Url` is modelled by its
string form), `editedUrl` is the text field's content after this frame's
editing, `confirmClicked` / `cancelClicked` are the "✔" / "🗙" buttons.
The confirm button exists only when the current field content parses; on
parse failure the error is shown inline instead. -/
def NewFeedWindow.show (w : NewFeedWindow)
    (parse : String → Except String String) (editedUrl : String)
    (confirmClicked cancelClicked : Bool) :
    NewFeedWindow × List UiItem × List ClientCall :=
  let w1 := { w with feed_url := editedUrl }
  match parse editedUrl with
  | .ok url =>
    let w2 := if confirmClicked then { w1 with is_open := false } else w1
    let calls :=
      if confirmClicked then [ClientCall.createFeedWithFolder url w1.folder_id]
      else []
    let w3 := if cancelClicked then { w2 with is_open := false } else w2
    (w3,
     [UiItem.label "订阅链接：", UiItem.textEdit editedUrl, UiItem.button "✔",
      UiItem.button "🗙"],
     calls)
  | .error err =>
    let w3 := if cancelClicked then { w1 with is_open := false } else w1
    (w3,
     [UiItem.label "订阅链接：", UiItem.textEdit editedUrl,
      UiItem.label ("非法的 URL：" ++ err), UiItem.button "🗙"],
     [])

/-- `NewFolderWindow` (view.rs lines 207-212).  The client handle is
modelled by the calls the window issues; the egui `Id` is not modelled. -/
structure NewFolderWindow where
  is_open : Bool
  folder_name : String
deriving DecidableEq, Repr

/-- `NewFolderWindow::new` (view.rs lines 214-222). -/
def NewFolderWindow.new : NewFolderWindow :=
  { is_open := true, folder_name := "" }

/-- `NewFolderWindow::show` (view.rs lines 226-247).  `editedName` is the
text field's content after this frame's editing; `confirmClicked` /
`cancelClicked` are the "确定" / "取消" buttons. -/
def NewFolderWindow.show (w : NewFolderWindow) (editedName : String)
    (confirmClicked cancelClicked : Bool) :
    NewFolderWindow × List UiItem × List ClientCall :=
  let w1 := { w with folder_name := editedName }
  let w2 := if confirmClicked then { w1 with is_open := false } else w1
  let calls := if confirmClicked then [ClientCall.createFolder editedName] else []
  let w3 := if cancelClicked then { w2 with is_open := false } else w2
  (w3,
   [UiItem.label "文件夹名称：", UiItem.textEdit editedName,
    UiItem.button "确定", UiItem.button "取消"],
   calls)

/-! ## The left side panel (src/view.rs lines 254-292) -/

/-- An application-level effect of the side panel frame. -/
inductive AppEffect where
  /-- `self.app.add_window(NewFolderWindow::new(..))` -/
  | addNewFolderWindow
deriving DecidableEq, Repr

/-- `LeftSidePanel::show` (view.rs lines 265-291).  Per-frame inputs:
`folders` is the client's `list_folder` answer, `orphans` the client's
`list_orphan_feed` answer, `newFolderClicked` the "新建文件夹" button. -/
def LeftSidePanel.show (folders : List FolderId) (orphans : List FeedId)
    (newFolderClicked : Bool) : List UiItem × List AppEffect :=
  ([UiItem.heading "Rust SuckS", UiItem.label "用 Rust 写的 RSS 阅读器",
    UiItem.hyperlink "RSSucks on Github" "https://github.com/jyi2ya/RSSucks",
    UiItem.separator, UiItem.label "订阅列表", UiItem.separator,
    UiItem.button "新建文件夹"] ++
   folders.map UiItem.collapsingFolder ++ orphans.map UiItem.feedMinimal,
   if newFolderClicked then [AppEffect.addNewFolderWindow] else [])

/-- Classify a widget as a sidebar folder/feed widget, keeping its id. -/
def sidebarWidget : UiItem → Option (FolderId ⊕ FeedId)
  | UiItem.collapsingFolder fid => some (Sum.inl fid)
  | UiItem.feedMinimal fid => some (Sum.inr fid)
  | _ => none

/-- Extract the wrapping settings of a rendered text layout job. -/
def previewWrap : PreviewItem → Option TextWrapping
  | PreviewItem.textJob _ wrap => some wrap
  | _ => none

/-! ## Sample inputs used by the witnesses -/

/-- A sample entry with every optional field present. -/
def sampleEntryFull : Entry :=
  { title := some ⟨"Title A"⟩, summary := [⟨"Summary A"⟩],
    updated := ["2024-01-01"], links := [⟨"http://a.example/"⟩],
    authors := [⟨"alice"⟩] }

/-- A sample entry with every optional field absent. -/
def sampleEntryEmpty : Entry :=
  { title := none, summary := [], updated := [], links := [], authors := [] }

/-- A sample synced feed model with two entries. -/
def sampleModel : FeedModel :=
  { title := some ⟨"Sample feed"⟩, updated := none, description := none,
    entries := [sampleEntryFull, sampleEntryEmpty] }

/-- A sample feed whose model is present. -/
def sampleFeed : Feed :=
  { url := "http://example.com/feed", model := some sampleModel }

/-- A sample feed whose model is absent (not yet synced). -/
def sampleFeedUnsynced : Feed :=
  { url := "http://example.com/feed", model := none }

/-- A sample stand-in for `url::Url::parse`: accepts one absolute URL and
rejects everything else. -/
def sampleParse : String → Except String String := fun s =>
  if s = "http://example.com/" then Except.ok "http://example.com/"
  else Except.error "relative URL without a base"

/-! ## Helper lemmas -/

theorem renderedArticles_append (xs ys : List UiItem) :
    renderedArticles (xs ++ ys) = renderedArticles xs ++ renderedArticles ys := by
  simp [renderedArticles]

theorem renderedArticles_map_article (cs : List ArticleComponent) :
    renderedArticles (cs.map UiItem.article) = cs := by
  induction cs with
  | nil => rfl
  | cons c cs ih => simp [renderedArticles, List.filterMap_cons] at ih ⊢; exact ih

theorem renderedArticles_modelHeader (m : FeedModel) :
    renderedArticles (modelHeader m) = [] := by
  rcases m with ⟨t, u, d, es⟩
  rcases t <;> rcases u <;> rcases d <;> simp [modelHeader, renderedArticles]

theorem renderedArticles_spinnerPre (b : Bool) :
    renderedArticles (if b then [UiItem.spinner] else []) = [] := by
  cases b <;> simp [renderedArticles]

theorem spinner_not_mem_modelHeader (m : FeedModel) :
    UiItem.spinner ∉ modelHeader m := by
  rcases m with ⟨t, u, d, es⟩
  rcases t <;> rcases u <;> rcases d <;> simp [modelHeader]

/-- Evaluation of `FeedFlowView.show` when the feed is found, its model is
present, and every preview renders. -/
theorem show_ok_of_model (v : FeedFlowView) (syncing clicked : Bool)
    (feed : Feed) (model : FeedModel) (renderOk : ArticleComponent → Bool)
    (hm : feed.model = some model) (hr : ∀ c, renderOk c = true) :
    v.show syncing (some feed) renderOk clicked =
      Except.ok ((if syncing then [UiItem.spinner] else []) ++
        modelHeader model ++
        ((pageEntries v model).map (renderEntry feed.url)).map UiItem.article ++
        [UiItem.label "第一页（暂时还没写翻页的操作"], []) := by
  have hfind : ((pageEntries v model).map (renderEntry feed.url)).find?
      (fun c => !(renderOk c)) = none := by
    apply List.find?_eq_none.mpr
    intro c _
    simp [hr c]
  simp [FeedFlowView.show, hm, hfind]

/-! ## Claim theorems -/

/-- C1: whenever the feed's model is present, `FeedFlowView::show` renders
exactly the entries at indices `(page-1)*per_page` through
`(page-1)*per_page + per_page - 1` of the model's entry list (fewer if the
list ends earlier), in list order; a fresh `FeedFlowView` has `page = 1`
and `per_page = 5`, so at most `per_page = 5` entries are shown per
frame. -/
theorem feedFlowView_show_pagination (v : FeedFlowView) (syncing clicked : Bool)
    (feed : Feed) (model : FeedModel) (renderOk : ArticleComponent → Bool)
    (hm : feed.model = some model) (hr : ∀ c, renderOk c = true) :
    ∃ items calls,
      v.show syncing (some feed) renderOk clicked = Except.ok (items, calls) ∧
      renderedArticles items =
        ((model.entries.drop ((v.page - 1) * v.per_page)).take v.per_page).map
          (renderEntry feed.url) ∧
      (renderedArticles items).length ≤ v.per_page ∧
      (FeedFlowView.new v.id).page = 1 ∧
      (FeedFlowView.new v.id).per_page = 5 := by
  refine ⟨_, _, show_ok_of_model v syncing clicked feed model renderOk hm hr,
    ?_, ?_, rfl, rfl⟩
  · rw [renderedArticles_append, renderedArticles_append, renderedArticles_append,
      renderedArticles_spinnerPre, renderedArticles_modelHeader,
      renderedArticles_map_article]
    simp [renderedArticles, pageEntries]
  · rw [renderedArticles_append, renderedArticles_append, renderedArticles_append,
      renderedArticles_spinnerPre, renderedArticles_modelHeader,
      renderedArticles_map_article]
    simp [renderedArticles, pageEntries]

/-- Witness for C1 at a concrete feed with two entries. -/
theorem feedFlowView_show_pagination_witness :
    ∃ items calls,
      (FeedFlowView.new ⟨0⟩).show false (some sampleFeed) (fun _ => true) false
        = Except.ok (items, calls) ∧
      renderedArticles items =
        ((sampleModel.entries.drop
            (((FeedFlowView.new ⟨0⟩).page - 1) * (FeedFlowView.new ⟨0⟩).per_page)).take
          (FeedFlowView.new ⟨0⟩).per_page).map (renderEntry sampleFeed.url) ∧
      (renderedArticles items).length ≤ (FeedFlowView.new ⟨0⟩).per_page ∧
      (FeedFlowView.new (FeedFlowView.new ⟨0⟩).id).page = 1 ∧
      (FeedFlowView.new (FeedFlowView.new ⟨0⟩).id).per_page = 5 :=
  feedFlowView_show_pagination (FeedFlowView.new ⟨0⟩) false false sampleFeed
    sampleModel (fun _ => true) rfl (fun _ => rfl)

/-- C3: for every entry rendered by `FeedFlowView::show`, each absent
optional field is replaced by its placeholder ("unnamed", "no link",
"no content", "no time"); when a field is present the first element of its
collection is used; and `Preview::ui` renders "No content..." when
`fulltext` is `None`. -/
theorem feedFlowView_show_placeholders (v : FeedFlowView)
    (syncing clicked : Bool) (feed : Feed) (model : FeedModel)
    (renderOk : ArticleComponent → Bool) (entry : Entry)
    (hm : feed.model = some model) (hr : ∀ c, renderOk c = true)
    (he : entry ∈ pageEntries v model) :
    ∃ items calls,
      v.show syncing (some feed) renderOk clicked = Except.ok (items, calls) ∧
      UiItem.article (renderEntry feed.url entry) ∈ items ∧
      (entry.title = none → (renderEntry feed.url entry).title = "unnamed") ∧
      (∀ t, entry.title = some t →
        (renderEntry feed.url entry).title = t.content) ∧
      (entry.links = [] → (renderEntry feed.url entry).link = "no link") ∧
      (∀ l rest, entry.links = l :: rest →
        (renderEntry feed.url entry).link = l.href) ∧
      (entry.summary = [] →
        (renderEntry feed.url entry).content = "no content") ∧
      (∀ s rest, entry.summary = s :: rest →
        (renderEntry feed.url entry).content = s.content) ∧
      (entry.updated = [] → (renderEntry feed.url entry).time = "no time") ∧
      (∀ u rest, entry.updated = u :: rest →
        (renderEntry feed.url entry).time = u) ∧
      (∀ p : Preview, p.fulltext = none →
        PreviewItem.textJob "No content..."
          { max_rows := p.max_rows, break_anywhere := p.break_anywhere,
            overflow_character := p.overflow_character } ∈ p.ui) := by
  refine ⟨_, _, show_ok_of_model v syncing clicked feed model renderOk hm hr,
    ?_, ?_, ?_, ?_, ?_, ?_, ?_, ?_, ?_, ?_⟩
  · simp only [List.mem_append]
    refine Or.inl (Or.inr ?_)
    exact List.mem_map_of_mem UiItem.article
      (List.mem_map_of_mem (renderEntry feed.url) he)
  · intro h; simp [renderEntry, h]
  · intro t h; simp [renderEntry, h]
  · intro h; simp [renderEntry, h]
  · intro l rest h; simp [renderEntry, h]
  · intro h; simp [renderEntry, h]
  · intro s rest h; simp [renderEntry, h]
  · intro h; simp [renderEntry, h]
  · intro u rest h; simp [renderEntry, h]
  · intro p h; simp [Preview.ui, h]

/-- Witness for C3 at a concrete entry with every optional field absent. -/
theorem feedFlowView_show_placeholders_witness :
    ∃ items calls,
      (FeedFlowView.new ⟨0⟩).show false (some sampleFeed) (fun _ => true) false
        = Except.ok (items, calls) ∧
      UiItem.article (renderEntry sampleFeed.url sampleEntryEmpty) ∈ items ∧
      (sampleEntryEmpty.title = none →
        (renderEntry sampleFeed.url sampleEntryEmpty).title = "unnamed") ∧
      (∀ t, sampleEntryEmpty.title = some t →
        (renderEntry sampleFeed.url sampleEntryEmpty).title = t.content) ∧
      (sampleEntryEmpty.links = [] →
        (renderEntry sampleFeed.url sampleEntryEmpty).link = "no link") ∧
      (∀ l rest, sampleEntryEmpty.links = l :: rest →
        (renderEntry sampleFeed.url sampleEntryEmpty).link = l.href) ∧
      (sampleEntryEmpty.summary = [] →
        (renderEntry sampleFeed.url sampleEntryEmpty).content = "no content") ∧
      (∀ s rest, sampleEntryEmpty.summary = s :: rest →
        (renderEntry sampleFeed.url sampleEntryEmpty).content = s.content) ∧
      (sampleEntryEmpty.updated = [] →
        (renderEntry sampleFeed.url sampleEntryEmpty).time = "no time") ∧
      (∀ u rest, sampleEntryEmpty.updated = u :: rest →
        (renderEntry sampleFeed.url sampleEntryEmpty).time = u) ∧
      (∀ p : Preview, p.fulltext = none →
        PreviewItem.textJob "No content..."
          { max_rows := p.max_rows, break_anywhere := p.break_anywhere,
            overflow_character := p.overflow_character } ∈ p.ui) :=
  feedFlowView_show_placeholders (FeedFlowView.new ⟨0⟩) false false sampleFeed
    sampleModel (fun _ => true) sampleEntryEmpty rfl (fun _ => rfl)
    (by simp [pageEntries, sampleModel, FeedFlowView.new])

/-- C2: a `Preview` built from a `Builder` lays out its text with exactly
the builder's truncation settings: the single layout job's wrapping has
`max_rows`, `break_anywhere` and `overflow_character` equal to the
builder's fields. -/
theorem preview_fromBuilder_wrapping (b : Builder) :
    ((Preview.fromBuilder b).ui).filterMap previewWrap =
      [{ max_rows := b.max_rows, break_anywhere := b.break_anywhere,
         overflow_character := b.overflow_character }] := by
  by_cases h : previewImages (Preview.fromBuilder b) = [] <;>
    simp [Preview.ui, Preview.fromBuilder, previewWrap, h]

/-- C9: `max_images_num` is hard-coded to 3 for every builder;
`Preview::ui` draws the image sources of `Image`-typed elements whose
source is present, in element order, capped at 3; the horizontal image
strip is rendered if and only if at least one such image exists. -/
theorem preview_images_capped (b : Builder) :
    (Preview.fromBuilder b).max_images_num = 3 ∧
    previewImages (Preview.fromBuilder b) =
      (match b.elements with
       | none => []
       | some es =>
         (es.filterMap fun e =>
           if e.typ = ElementType.image then e.image_tuple.1 else none).take 3) ∧
    (previewImages (Preview.fromBuilder b)).length ≤ 3 ∧
    (PreviewItem.imageStrip (previewImages (Preview.fromBuilder b)) ∈
        (Preview.fromBuilder b).ui ↔
      previewImages (Preview.fromBuilder b) ≠ []) := by
  refine ⟨rfl, ?_, ?_, ?_⟩
  · rcases hb : b.elements with _ | es <;>
      simp [previewImages, Preview.fromBuilder, hb]
  · rcases hb : b.elements with _ | es <;>
      simp [previewImages, Preview.fromBuilder, hb]
  · by_cases h : previewImages (Preview.fromBuilder b) = [] <;>
      simp [Preview.ui, h]

/-- C4: if `url::Url::parse` rejects the field's content,
`NewFeedWindow::show` shows an inline error label carrying the parse error,
offers no confirm button and issues no client call; if parsing succeeds,
the confirm button is offered, and clicking it issues
`create_feed_with_folder` with the parsed URL and the window's folder id
and closes the window. -/
theorem newFeedWindow_show_url_validation (w : NewFeedWindow)
    (parse : String → Except String String) (u : String)
    (confirm cancel : Bool) :
    (∀ err, parse u = Except.error err →
      UiItem.label ("非法的 URL：" ++ err) ∈
        (w.show parse u confirm cancel).2.1 ∧
      UiItem.button "✔" ∉ (w.show parse u confirm cancel).2.1 ∧
      (w.show parse u confirm cancel).2.2 = []) ∧
    (∀ url, parse u = Except.ok url →
      UiItem.button "✔" ∈ (w.show parse u confirm cancel).2.1 ∧
      (confirm = true →
        (w.show parse u confirm cancel).2.2 =
          [ClientCall.createFeedWithFolder url w.folder_id] ∧
        (w.show parse u confirm cancel).1.is_open = false)) := by
  constructor
  · intro err herr
    refine ⟨?_, ?_, ?_⟩ <;> simp [NewFeedWindow.show, herr]
  · intro url hok
    constructor
    · simp [NewFeedWindow.show, hok]
    · intro hc
      subst hc
      cases cancel <;> simp [NewFeedWindow.show, hok]

/-- Witness for C4 at the sample parse function: a rejected URL shows the
error inline with no confirm button and an accepted URL's confirm click
creates the feed and closes the window. -/
theorem newFeedWindow_show_url_validation_witness :
    ((∀ err, sampleParse "bad" = Except.error err →
      UiItem.label ("非法的 URL：" ++ err) ∈
        ((NewFeedWindow.new none).show sampleParse "bad" true false).2.1 ∧
      UiItem.button "✔" ∉
        ((NewFeedWindow.new none).show sampleParse "bad" true false).2.1 ∧
      ((NewFeedWindow.new none).show sampleParse "bad" true false).2.2 = []) ∧
    (∀ url, sampleParse "bad" = Except.ok url →
      UiItem.button "✔" ∈
        ((NewFeedWindow.new none).show sampleParse "bad" true false).2.1 ∧
      (true = true →
        ((NewFeedWindow.new none).show sampleParse "bad" true false).2.2 =
          [ClientCall.createFeedWithFolder url
            (NewFeedWindow.new none).folder_id] ∧
        ((NewFeedWindow.new none).show sampleParse "bad" true false).1.is_open
          = false))) ∧
    UiItem.label ("非法的 URL：" ++ "relative URL without a base") ∈
      ((NewFeedWindow.new none).show sampleParse "bad" true false).2.1 ∧
    UiItem.button "✔" ∈
      ((NewFeedWindow.new none).show sampleParse "http://example.com/" true
        false).2.1 ∧
    ((NewFeedWindow.new none).show sampleParse "http://example.com/" true
      false).2.2 =
      [ClientCall.createFeedWithFolder "http://example.com/"
        (NewFeedWindow.new none).folder_id] ∧
    ((NewFeedWindow.new none).show sampleParse "http://example.com/" true
      false).1.is_open = false := by
  refine ⟨newFeedWindow_show_url_validation (NewFeedWindow.new none)
      sampleParse "bad" true false, ?_, ?_, ?_, ?_⟩
  · exact ((newFeedWindow_show_url_validation (NewFeedWindow.new none)
      sampleParse "bad" true false).1 "relative URL without a base" rfl).1
  · exact ((newFeedWindow_show_url_validation (NewFeedWindow.new none)
      sampleParse "http://example.com/" true false).2 "http://example.com/"
      rfl).1
  · exact (((newFeedWindow_show_url_validation (NewFeedWindow.new none)
      sampleParse "http://example.com/" true false).2 "http://example.com/"
      rfl).2 rfl).1
  · exact (((newFeedWindow_show_url_validation (NewFeedWindow.new none)
      sampleParse "http://example.com/" true false).2 "http://example.com/"
      rfl).2 rfl).2

/-- C5: on every non-panicking frame, `FeedFlowView::show` displays the
sync spinner if and only if the client's `feed_is_syncing` answer is true,
and the only client call it can issue is the fire-and-forget
`try_start_sync_feed`, issued exactly when the feed's model is absent and
the sync button is clicked; no cancellation call exists. -/
theorem feedFlowView_show_sync_spinner (v : FeedFlowView)
    (syncing clicked : Bool) (feed : Feed)
    (renderOk : ArticleComponent → Bool) (items : List UiItem)
    (calls : List ClientCall)
    (h : v.show syncing (some feed) renderOk clicked =
      Except.ok (items, calls)) :
    (UiItem.spinner ∈ items ↔ syncing = true) ∧
    calls = (if feed.model.isNone && clicked
             then [ClientCall.tryStartSyncFeed v.id] else []) := by
  rcases hm : feed.model with _ | model
  · simp only [FeedFlowView.show, hm] at h
    rw [Except.ok.injEq, Prod.mk.injEq] at h
    obtain ⟨hi, hc⟩ := h
    subst hi
    subst hc
    constructor
    · cases syncing <;> simp
    · simp [hm]
  · rcases hfind : ((pageEntries v model).map (renderEntry feed.url)).find?
        (fun c => !(renderOk c)) with _ | c
    · simp only [FeedFlowView.show, hm, hfind] at h
      rw [Except.ok.injEq, Prod.mk.injEq] at h
      obtain ⟨hi, hc⟩ := h
      subst hi
      subst hc
      constructor
      · cases syncing <;>
          simp [List.mem_append, spinner_not_mem_modelHeader model]
      · simp [hm]
    · simp [FeedFlowView.show, hm, hfind] at h

/-- Witness for C5 at an unsynced feed with the spinner on and the sync
button clicked. -/
theorem feedFlowView_show_sync_spinner_witness :
    (UiItem.spinner ∈
      [UiItem.spinner, UiItem.label "该订阅尚未同步，现在同步吗？",
       UiItem.button "同步"] ↔ true = true) ∧
    [ClientCall.tryStartSyncFeed ⟨1⟩] =
      (if sampleFeedUnsynced.model.isNone && true
       then [ClientCall.tryStartSyncFeed (FeedFlowView.new ⟨1⟩).id]
       else []) :=
  feedFlowView_show_sync_spinner (FeedFlowView.new ⟨1⟩) true true
    sampleFeedUnsynced (fun _ => true)
    [UiItem.spinner, UiItem.label "该订阅尚未同步，现在同步吗？",
     UiItem.button "同步"]
    [ClientCall.tryStartSyncFeed ⟨1⟩] rfl

theorem sidebar_filterMap_folders (folders : List FolderId) :
    List.filterMap (sidebarWidget ∘ UiItem.collapsingFolder) folders =
      folders.map Sum.inl := by
  induction folders with
  | nil => rfl
  | cons f fs ih => simp [sidebarWidget, List.filterMap_cons] at ih ⊢; exact ih

theorem sidebar_filterMap_feeds (orphans : List FeedId) :
    List.filterMap (sidebarWidget ∘ UiItem.feedMinimal) orphans =
      orphans.map Sum.inr := by
  induction orphans with
  | nil => rfl
  | cons f fs ih => simp [sidebarWidget, List.filterMap_cons] at ih ⊢; exact ih

/-- C6: on every frame, `LeftSidePanel::show` renders one collapsing-folder
widget per id returned by `list_folder`, in order, followed by one
minimal-feed widget per id returned by `list_orphan_feed`, in order, with
nothing skipped or duplicated. -/
theorem leftSidePanel_show_widgets (folders : List FolderId)
    (orphans : List FeedId) (clicked : Bool) :
    (LeftSidePanel.show folders orphans clicked).1.filterMap sidebarWidget =
      folders.map Sum.inl ++ orphans.map Sum.inr := by
  simp [LeftSidePanel.show, List.filterMap_append, sidebar_filterMap_folders,
    sidebar_filterMap_feeds, List.filterMap_cons, sidebarWidget]

/-- C8: `FeedFlowView::show` panics (`unwrap` on `None`) whenever the
client's `get_feed` answer is `None`, and never panics when the feed is
found and every entry preview renders without error. -/
theorem feedFlowView_show_panic (v : FeedFlowView) (syncing clicked : Bool)
    (renderOk : ArticleComponent → Bool) :
    v.show syncing none renderOk clicked = Except.error Panic.unwrapNone ∧
    (∀ feed : Feed, (∀ c, renderOk c = true) →
      ∃ out, v.show syncing (some feed) renderOk clicked = Except.ok out) := by
  refine ⟨rfl, ?_⟩
  intro feed hr
  rcases hm : feed.model with _ | model
  · refine ⟨((if syncing then [UiItem.spinner] else []) ++
      [UiItem.label "该订阅尚未同步，现在同步吗？", UiItem.button "同步"],
      if clicked then [ClientCall.tryStartSyncFeed v.id] else []), ?_⟩
    simp [FeedFlowView.show, hm]
  · exact ⟨_, show_ok_of_model v syncing clicked feed model renderOk hm hr⟩

/-- Witness for C8: the concrete unsynced feed is found, hence no panic;
a missing feed panics. -/
theorem feedFlowView_show_panic_witness :
    (FeedFlowView.new ⟨0⟩).show false none (fun _ => true) false =
      Except.error Panic.unwrapNone ∧
    ∃ out, (FeedFlowView.new ⟨0⟩).show false (some sampleFeed)
      (fun _ => true) false = Except.ok out :=
  ⟨(feedFlowView_show_panic (FeedFlowView.new ⟨0⟩) false false
      (fun _ => true)).1,
   (feedFlowView_show_panic (FeedFlowView.new ⟨0⟩) false false
      (fun _ => true)).2 sampleFeed (fun _ => rfl)⟩

/-- C7: every window is constructed open; `is_open` becomes false only
through a user action inside `show` (a frame with no close/confirm/cancel
action leaves it unchanged); and no `show` ever turns `is_open` from false
back to true. -/
theorem windows_open_lifecycle :
    (∀ t m, (InfoWindow.new t m).is_open = true) ∧
    (∀ f, (NewFeedWindow.new f).is_open = true) ∧
    NewFolderWindow.new.is_open = true ∧
    (∀ w : InfoWindow, (w.show false).1.is_open = w.is_open) ∧
    (∀ (w : InfoWindow) (c : Bool),
      (w.show c).1.is_open = true → w.is_open = true) ∧
    (∀ (w : NewFeedWindow) (parse : String → Except String String)
      (u : String), (w.show parse u false false).1.is_open = w.is_open) ∧
    (∀ (w : NewFeedWindow) (parse : String → Except String String)
      (u : String) (confirm cancel : Bool),
      (w.show parse u confirm cancel).1.is_open = true →
        w.is_open = true) ∧
    (∀ (w : NewFolderWindow) (n : String),
      (w.show n false false).1.is_open = w.is_open) ∧
    (∀ (w : NewFolderWindow) (n : String) (confirm cancel : Bool),
      (w.show n confirm cancel).1.is_open = true → w.is_open = true) := by
  refine ⟨fun t m => rfl, fun f => rfl, rfl, ?_, ?_, ?_, ?_, ?_, ?_⟩
  · intro w
    simp [InfoWindow.show]
  · intro w c h
    simp [InfoWindow.show] at h
    exact h.1
  · intro w parse u
    rcases hp : parse u with err | url <;> simp [NewFeedWindow.show, hp]
  · intro w parse u confirm cancel h
    rcases hp : parse u with err | url <;> cases confirm <;> cases cancel <;>
      simp [NewFeedWindow.show, hp] at h <;> exact h
  · intro w n
    simp [NewFolderWindow.show]
  · intro w n confirm cancel h
    cases confirm <;> cases cancel <;>
      simp [NewFolderWindow.show] at h <;> exact h

/-- Witness for C7: a freshly constructed `InfoWindow` is open, derived by
applying the lifecycle theorem's monotonicity at a no-close frame. -/
theorem windows_open_lifecycle_witness :
    (InfoWindow.new "info" "message").is_open = true :=
  windows_open_lifecycle.2.2.2.2.1 (InfoWindow.new "info" "message") false
    (by simp [InfoWindow.show, InfoWindow.new])

/-- C10: clicking cancel (without confirm) in `NewFeedWindow` or
`NewFolderWindow` closes the window and issues no client call: no feed and
no folder is created by a cancelled dialog. -/
theorem cancel_closes_without_calls (wfeed : NewFeedWindow)
    (wfolder : NewFolderWindow) (parse : String → Except String String)
    (u n : String) :
    ((wfeed.show parse u false true).1.is_open = false ∧
     (wfeed.show parse u false true).2.2 = []) ∧
    ((wfolder.show n false true).1.is_open = false ∧
     (wfolder.show n false true).2.2 = []) := by
  refine ⟨⟨?_, ?_⟩, ?_, ?_⟩ <;>
    first
      | (rcases hp : parse u with err | url <;> simp [NewFeedWindow.show, hp])
      | simp [NewFolderWindow.show]
